import Mathlib

/-!
Verification of the OpenSILEX-API Python client against its design
specification.

The Python sources are shallowly embedded.  JSON values, HTTP outcomes
and the session state are explicit data; network traffic is supplied by
oracle functions mapping a call index to an outcome; every Python
operation becomes a total Lean function mirroring the source control
flow statement by statement.  Exceptions that the source catches are
modelled by the corresponding failure value; exceptions the source lets
escape are modelled with Except.
-/

/-- JSON-like values exchanged with the remote service, as decoded by
response.json().  Numbers are modelled as integers; floating point
payloads play no role in any verified property. -/
inductive JVal where
  | null
  | bool (b : Bool)
  | num (n : Int)
  | str (s : String)
  | arr (xs : List JVal)
  | obj (kvs : List (String × JVal))

/-- Python dict update d[k] = v: replaces the value in place when the key
is present (insertion order preserved), otherwise appends the new pair. -/
def dictSet {β : Type} (d : List (String × β)) (k : String) (v : β) :
    List (String × β) :=
  match d with
  | [] => [(k, v)]
  | (k', v') :: rest =>
    if k' = k then (k, v) :: rest else (k', v') :: dictSet rest k v

/-- Python dict read d.get(k): the value stored under k, if any. -/
def dictGet {β : Type} (d : List (String × β)) (k : String) : Option β :=
  match d with
  | [] => none
  | (k', v') :: rest => if k' = k then some v' else dictGet rest k

/-- Python subscript j[k] for a string key: succeeds only when j is an
object containing k; any other shape raises KeyError or TypeError,
modelled as none (the callers catch the exception). -/
def jGet (j : JVal) (k : String) : Option JVal :=
  match j with
  | .obj kvs => dictGet kvs k
  | _ => none

mutual

/-- Python repr() of a decoded JSON value (string escaping elided). -/
def pyRepr : JVal → String
  | .null => "None"
  | .bool true => "True"
  | .bool false => "False"
  | .num n => toString n
  | .str s => "'" ++ s ++ "'"
  | .arr xs => "[" ++ String.intercalate ", " (pyReprList xs) ++ "]"
  | .obj kvs => "\x7b" ++ String.intercalate ", " (pyReprObj kvs) ++ "\x7d"

/-- Helper of pyRepr for array elements. -/
def pyReprList : List JVal → List String
  | [] => []
  | x :: xs => pyRepr x :: pyReprList xs

/-- Helper of pyRepr for object entries. -/
def pyReprObj : List (String × JVal) → List String
  | [] => []
  | (k, v) :: xs => ("'" ++ k ++ "': " ++ pyRepr v) :: pyReprObj xs

end

/-- Python str() of a decoded JSON value, as used in f-strings. -/
def pyStr : JVal → String
  | .str s => s
  | j => pyRepr j

/-- Session state of OpenSilexClient: the stored bearer token
(self.token, None until authentication) and the default header dict
(self.headers, initialised in __init__ to the Content-Type entry). -/
structure Session where
  token : Option JVal
  headers : List (String × String)

/-- Header dict a fresh client holds after __init__. -/
def initHeaders : List (String × String) := [("Content-Type", "application/json")]

/-- Outcome of one network call: a transport-level exception raised by
requests, or a response carrying a status code and a decoded JSON body. -/
inductive HttpResult where
  | exn
  | resp (status : Nat) (body : JVal)

/-- Embedding of OpenSilexClient.authenticate.  The outcome of the POST
to the authentication endpoint is supplied by net.  On status 200 the
source reads response.json()["result"]["token"]; a missing field raises
KeyError, which the enclosing handler catches, so the session is left
unchanged and False is returned.  On success the token is stored and an
Authorization header is injected into the header dict.  Every failure
path (exception, non-200 status, malformed body) returns False with the
session untouched. -/
def authenticate (s : Session) (net : HttpResult) : Bool × Session :=
  match net with
  | .exn => (false, s)
  | .resp status body =>
    if status = 200 then
      match jGet body "result" with
      | none => (false, s)
      | some r =>
        match jGet r "token" with
        | none => (false, s)
        | some t =>
          (true, { token := some t,
                   headers := dictSet s.headers "Authorization" ("Bearer " ++ pyStr t) })
    else (false, s)

/-- Result of one _make_request call: the returned value (None on any
failure), the session afterwards, the header dicts sent on each call to
the target endpoint in order, and how many calls hit the auth endpoint. -/
structure ReqResult where
  result : Option JVal
  session : Session
  sentTarget : List (List (String × String))
  authCalls : Nat

/-- Request/retry body of _make_request, entered once a token is held.
The first target call consumes targetNet 0.  A 401 triggers exactly one
re-authentication (consuming the next auth outcome); if it succeeds the
request is re-issued exactly once (targetNet 1) with the refreshed
headers, and no further retry happens whatever that second response is.
A final 200 yields the decoded body, anything else yields none; a
transport exception on either attempt is caught and yields none. -/
def makeRequestCore (s : Session) (targetNet authNet : Nat → HttpResult)
    (authUsed : Nat) : ReqResult :=
  match targetNet 0 with
  | .exn => ⟨none, s, [s.headers], authUsed⟩
  | .resp st body =>
    if st = 401 then
      match authenticate s (authNet authUsed) with
      | (true, s1) =>
        match targetNet 1 with
        | .exn => ⟨none, s1, [s.headers, s1.headers], authUsed + 1⟩
        | .resp st2 body2 =>
          if st2 = 200 then ⟨some body2, s1, [s.headers, s1.headers], authUsed + 1⟩
          else ⟨none, s1, [s.headers, s1.headers], authUsed + 1⟩
      | (false, s1) => ⟨none, s1, [s.headers], authUsed + 1⟩
    else if st = 200 then ⟨some body, s, [s.headers], authUsed⟩
    else ⟨none, s, [s.headers], authUsed⟩

/-- Embedding of OpenSilexClient._make_request.  When no token is held,
authenticate runs first (consuming authNet 0); if it fails the call
returns None without touching the target endpoint.  The function is
total: no branch propagates an exception. -/
def _make_request (s : Session) (targetNet authNet : Nat → HttpResult) : ReqResult :=
  match s.token with
  | some _ => makeRequestCore s targetNet authNet 0
  | none =>
    match authenticate s (authNet 0) with
    | (true, s1) => makeRequestCore s1 targetNet authNet 1
    | (false, s1) => ⟨none, s1, [], 1⟩

/-- Loop body of OpenSilexClient.get_all_pages.  The underlying listing
method, already specialised to the fixed page_size of 50, is the oracle
method: it maps a page number to the Optional list the Python method
returns (none models a None result from a swallowed error).  The source
loop is while True; a fuel argument bounds the unrolling, and every
verified scenario supplies enough fuel to reach the loop's own break.
Returns the accumulated items and the number of calls made. -/
def getAllPagesAux {α : Type} (method : Nat → Option (List α)) :
    Nat → Nat → List α → Nat → List α × Nat
  | 0, _, acc, calls => (acc, calls)
  | fuel + 1, page, acc, calls =>
    match method page with
    | none => (acc, calls + 1)
    | some results =>
      if results.isEmpty then (acc, calls + 1)
      else if results.length < 50 then (acc ++ results, calls + 1)
      else getAllPagesAux method fuel (page + 1) (acc ++ results) (calls + 1)

/-- Embedding of OpenSilexClient.get_all_pages: starts at page 0 with an
empty accumulator, page_size fixed at 50. -/
def get_all_pages {α : Type} (method : Nat → Option (List α)) (fuel : Nat) :
    List α × Nat :=
  getAllPagesAux method fuel 0 [] 0

/-- Hexadecimal digit characters as produced by urllib quoting (uppercase). -/
def hexDigit (n : Nat) : Char :=
  if n < 10 then Char.ofNat (48 + n) else Char.ofNat (55 + n)

/-- UTF-8 byte sequence of one character, as Python encodes non-safe
characters before percent-escaping them. -/
def utf8Bytes (c : Char) : List Nat :=
  let n := c.toNat
  if n < 128 then [n]
  else if n < 2048 then [192 + n / 64, 128 + n % 64]
  else if n < 65536 then [224 + n / 4096, 128 + (n / 64) % 64, 128 + n % 64]
  else [240 + n / 262144, 128 + (n / 4096) % 64, 128 + (n / 64) % 64, 128 + n % 64]

/-- Characters urllib.parse.quote never escapes: ASCII letters, digits,
and the four marks underscore, dot, hyphen, tilde.  With safe set to the
empty string these are the only characters kept verbatim. -/
def alwaysSafe (c : Char) : Bool :=
  c.isAlphanum || c = '_' || c = '.' || c = '-' || c = '~'

/-- Percent-escapes of a byte list: each byte becomes a percent sign
followed by its two uppercase hex digits. -/
def percentChars : List Nat → List Char
  | [] => []
  | b :: bs => '%' :: hexDigit (b / 16) :: hexDigit (b % 16) :: percentChars bs

/-- Character loop of urllib.parse.quote: safe characters are kept,
every other character is replaced by the percent-escapes of its UTF-8
bytes. -/
def quoteChars : List Char → List Char
  | [] => []
  | c :: cs =>
    (if alwaysSafe c then [c] else percentChars (utf8Bytes c)) ++ quoteChars cs

/-- Embedding of urllib.parse.quote with an empty safe set, as used in
modules/projects.py. -/
def quote (s : String) : String :=
  ⟨quoteChars s.data⟩

/-- Path built by ProjectsClient.get_project_by_uri: the URI is passed
through quote with an empty safe set before interpolation. -/
def get_project_by_uri_path (uri : String) : String :=
  "/core/projects/" ++ quote uri

/-- Path built by ProjectsClient.delete_project: the URI is interpolated
into the f-string verbatim. -/
def delete_project_path (uri : String) : String :=
  "/core/projects/" ++ uri

/-- Path built by ProjectsClient.get_experiment_by_uri: verbatim
interpolation. -/
def get_experiment_by_uri_path (uri : String) : String :=
  "/core/experiments/" ++ uri

/-- Path built by ProjectsClient.delete_experiment: verbatim
interpolation. -/
def delete_experiment_path (uri : String) : String :=
  "/core/experiments/" ++ uri

/-- Path built by ProjectsClient.get_scientific_object_by_uri: verbatim
interpolation. -/
def get_scientific_object_by_uri_path (uri : String) : String :=
  "/core/scientific_objects/" ++ uri

/-- Path built by ProjectsClient.delete_scientific_object: verbatim
interpolation. -/
def delete_scientific_object_path (uri : String) : String :=
  "/core/scientific_objects/" ++ uri

/-- Values placed into a query dict or JSON body by the projects module:
strings, integers, booleans, or lists of strings, exactly as the
dataclass fields hold them (passed on verbatim). -/
inductive PVal where
  | s (v : String)
  | i (v : Int)
  | b (v : Bool)
  | ls (v : List String)
deriving DecidableEq, Repr

/-- Python truthiness of an optional string field: None and the empty
string are falsy. -/
def truthyStr : Option String → Bool
  | none => false
  | some v => v ≠ ""

/-- Python truthiness of an optional integer field: None and 0 are falsy. -/
def truthyInt : Option Int → Bool
  | none => false
  | some v => v ≠ 0

/-- Python truthiness of an optional list field: None and the empty list
are falsy. -/
def truthyList : Option (List String) → Bool
  | none => false
  | some v => v ≠ []

/-- Conditional singleton segment: the pair a Python `if field:` block
adds to the dict when the condition holds, nothing otherwise. -/
def seg (cond : Bool) (k : String) (v : PVal) : List (String × PVal) :=
  if cond then [(k, v)] else []

/-- Dataclass ProjectSearchParams of modules/projects.py. -/
structure ProjectSearchParams where
  name : Option String := none
  year : Option Int := none
  keyword : Option String := none
  order_by : Option (List String) := none
  page : Int := 0
  page_size : Int := 20

/-- Dataclass ProjectCreationData of modules/projects.py.  Every field,
name included, defaults to None in the source. -/
structure ProjectCreationData where
  uri : Option String := none
  name : Option String := none
  shortname : Option String := none
  description : Option String := none
  start_date : Option String := none
  end_date : Option String := none
  homepage : Option String := none
  objective : Option String := none
  keywords : Option (List String) := none
  related_projects : Option (List String) := none
  coordinators : Option (List String) := none
  scientific_contacts : Option (List String) := none
  administrative_contacts : Option (List String) := none

/-- Query dict built by ProjectsClient.search_projects: page and
page_size always, then each optional field guarded by its truthiness, in
source order. -/
def search_projects (p : ProjectSearchParams) : List (String × PVal) :=
  [("page", PVal.i p.page), ("page_size", PVal.i p.page_size)] ++
  (seg (truthyStr p.name) "name" (PVal.s (p.name.getD "")) ++
  (seg (truthyInt p.year) "year" (PVal.i (p.year.getD 0)) ++
  (seg (truthyStr p.keyword) "keyword" (PVal.s (p.keyword.getD "")) ++
  seg (truthyList p.order_by) "order_by" (PVal.ls (p.order_by.getD [])))))

/-- JSON body built by ProjectsClient.create_project: one truthiness
guard per field, in source order. -/
def create_project (d : ProjectCreationData) : List (String × PVal) :=
  seg (truthyStr d.uri) "uri" (PVal.s (d.uri.getD "")) ++
  (seg (truthyStr d.name) "name" (PVal.s (d.name.getD "")) ++
  (seg (truthyStr d.shortname) "shortname" (PVal.s (d.shortname.getD "")) ++
  (seg (truthyStr d.description) "description" (PVal.s (d.description.getD "")) ++
  (seg (truthyStr d.start_date) "start_date" (PVal.s (d.start_date.getD "")) ++
  (seg (truthyStr d.end_date) "end_date" (PVal.s (d.end_date.getD "")) ++
  (seg (truthyStr d.homepage) "homepage" (PVal.s (d.homepage.getD "")) ++
  (seg (truthyStr d.objective) "objective" (PVal.s (d.objective.getD "")) ++
  (seg (truthyList d.keywords) "keywords" (PVal.ls (d.keywords.getD [])) ++
  (seg (truthyList d.related_projects) "related_projects"
    (PVal.ls (d.related_projects.getD [])) ++
  (seg (truthyList d.coordinators) "coordinators"
    (PVal.ls (d.coordinators.getD [])) ++
  (seg (truthyList d.scientific_contacts) "scientific_contacts"
    (PVal.ls (d.scientific_contacts.getD [])) ++
  seg (truthyList d.administrative_contacts) "administrative_contacts"
    (PVal.ls (d.administrative_contacts.getD [])))))))))))))

/-- Query dict built by ProjectsClient.get_projects_by_uris: the URI list
is passed verbatim as the single query value. -/
def get_projects_by_uris (uris : List String) : List (String × PVal) :=
  [("uris", PVal.ls uris)]

/-- Python line.split(): whitespace-separated words, empties discarded. -/
def lineWords (s : String) : List String :=
  (s.split Char.isWhitespace).filter (· ≠ "")

/-- Split a stripped line at its first whitespace run, as both
line.split(None, 1) and re.split over whitespace with one split do: the
first component is the leading word, the second the remainder with the
separating run removed (empty when the line holds a single word). -/
def splitKV (s : String) : String × String :=
  let cs := s.data
  let key := cs.takeWhile (fun c => !c.isWhitespace)
  let rest := (cs.dropWhile (fun c => !c.isWhitespace)).dropWhile Char.isWhitespace
  (⟨key⟩, ⟨rest⟩)

/-- Nested dict update hosts[h][k] = v of the SSH parsers.  In both
sources h was inserted by the preceding Host line, so the entry always
exists when this runs; the absent case inserts a fresh entry. -/
def hostsUpdate (hosts : List (String × List (String × String))) (h k v : String) :
    List (String × List (String × String)) :=
  match dictGet hosts h with
  | some attrs => dictSet hosts h (dictSet attrs k v)
  | none => dictSet hosts h [(k, v)]

/-- Line loop of SSHConfigParser.parse_ssh_config in opensilex_client.py.
Blank and comment lines are skipped; a Host line (case-insensitive
keyword, second word taken verbatim) opens a fresh entry; an attribute
line is consumed only when a current host is set, the raw line contains
a space character, and splitting yields two parts; the key is
lower-cased and the value stripped.  A Host line with no second word
would raise IndexError, caught by the enclosing handler which returns
the hosts collected so far (line stripping makes this unreachable). -/
def parseLinesOS : List String → Option String →
    List (String × List (String × String)) → List (String × List (String × String))
  | [], _, hosts => hosts
  | l :: rest, cur, hosts =>
    let line := l.trim
    if line = "" || line.startsWith "#" then parseLinesOS rest cur hosts
    else if line.toLower.startsWith "host " then
      match lineWords line with
      | _ :: hostWord :: _ => parseLinesOS rest (some hostWord) (dictSet hosts hostWord [])
      | _ => hosts
    else
      match cur with
      | some host =>
        if line.contains ' ' then
          let kv := splitKV line
          if kv.2 ≠ "" then
            parseLinesOS rest cur (hostsUpdate hosts host kv.1.toLower kv.2.trim)
          else parseLinesOS rest cur hosts
        else parseLinesOS rest cur hosts
      | none => parseLinesOS rest cur hosts

/-- Embedding of SSHConfigParser.parse_ssh_config in opensilex_client.py.
The file contents arrive as an optional list of lines; none models a
missing or unreadable path, whose FileNotFoundError (or any other
Exception) the source catches, logging a warning and returning the hosts
dict accumulated so far — the empty dict, since opening failed before
any line was read. -/
def parse_ssh_config (file : Option (List String)) :
    List (String × List (String × String)) :=
  match file with
  | none => []
  | some lines => parseLinesOS lines none []

/-- Line loop of SSHConfigParser._parse in get_host.py.  Unlike the
opensilex_client parser there is no exception handler: an attribute line
with no whitespace makes the two-way unpacking of the split raise
ValueError, which propagates. -/
def parseLinesGH : List String → Option String →
    List (String × List (String × String)) →
    Except String (List (String × List (String × String)))
  | [], _, hosts => .ok hosts
  | l :: rest, cur, hosts =>
    let line := l.trim
    if line = "" || line.startsWith "#" then parseLinesGH rest cur hosts
    else if line.toLower.startsWith "host " then
      match lineWords line with
      | _ :: hostWord :: _ => parseLinesGH rest (some hostWord) (dictSet hosts hostWord [])
      | _ => .error "IndexError"
    else
      match cur with
      | some host =>
        let kv := splitKV line
        if kv.2 = "" then .error "ValueError"
        else parseLinesGH rest cur (hostsUpdate hosts host kv.1.toLower kv.2)
      | none => parseLinesGH rest cur hosts

/-- Embedding of SSHConfigParser._parse in get_host.py, called from its
constructor.  The open call is not wrapped in any try block: a missing
or unreadable config file raises FileNotFoundError straight to the
caller, modelled as an error value. -/
def getHostParse (file : Option (List String)) :
    Except String (List (String × List (String × String))) :=
  match file with
  | none => .error "FileNotFoundError"
  | some lines => parseLinesGH lines none []

/-- Modelled from the spec: the APIResponse (ResponseEnvelope) record of
modules/base.py, which is absent from the sources — modules/projects.py
imports it from .base but no base module is present.  Spec section 3
gives its fields: success flag, decoded payload (nullable), list of
error messages, human-readable message (nullable), HTTP status code
(nullable). -/
structure APIResponse where
  success : Bool
  payload : Option JVal
  errors : List String
  message : Option String
  status_code : Option Nat

/-- Modelled from the spec: the outcome taxonomy of spec section 4.3
that envelope construction classifies — transport failure before any
response, authentication failure (status 401 or none depending on
stage), or a received response with its status, body, and the remote
error list and message. -/
inductive CallOutcome where
  | transportFailure
  | authFailure (stage : Option Nat) (msg : String)
  | response (status : Nat) (body : JVal) (remoteErrors : List String)
      (remoteMessage : Option String)

/-- Modelled from the spec: the single constructor of modules/base.py
that classifies an HTTP outcome into an envelope, per spec section 4.3:
transport failure gives a connection-error envelope with no status;
authentication failure gives a failed envelope with the remote message;
a 2xx response gives success with the payload taken from the result
field; any other status gives a failed envelope carrying the status and
the remote error list. -/
def mkEnvelope : CallOutcome → APIResponse
  | .transportFailure =>
    { success := false, payload := none, errors := ["connection error"],
      message := none, status_code := none }
  | .authFailure stage msg =>
    { success := false, payload := none, errors := [],
      message := some msg, status_code := stage }
  | .response status body remoteErrors remoteMessage =>
    if 200 ≤ status ∧ status ≤ 299 then
      { success := true, payload := jGet body "result", errors := [],
        message := remoteMessage, status_code := some status }
    else
      { success := false, payload := none, errors := remoteErrors,
        message := remoteMessage, status_code := some status }

/-- Body the authentication endpoint returns on success: an object whose
result field holds an object with the token. -/
def authBody (T : String) : JVal :=
  .obj [("result", .obj [("token", .str T)])]

/-- Session of a client that authenticated earlier and still holds the
stale token OLD together with its Authorization header. -/
def sessTok : Session :=
  { token := some (.str "OLD"),
    headers := [("Content-Type", "application/json"), ("Authorization", "Bearer OLD")] }

/-- Session of a freshly constructed client: no token, default headers. -/
def sessNoTok : Session := { token := none, headers := initHeaders }

theorem dictGet_dictSet {β : Type} (d : List (String × β)) (k : String) (v : β) :
    dictGet (dictSet d k v) k = some v := by
  induction d with
  | nil => simp [dictSet, dictGet]
  | cons hd tl ih =>
    obtain ⟨k', v'⟩ := hd
    by_cases h : k' = k
    · simp [dictSet, dictGet, h]
    · simp [dictSet, dictGet, h, ih]

theorem authenticate_authBody (s : Session) (T : String) :
    authenticate s (.resp 200 (authBody T))
      = (true, { token := some (.str T),
                 headers := dictSet s.headers "Authorization" ("Bearer " ++ T) }) := by
  simp [authenticate, authBody, jGet, dictGet, pyStr]

theorem makeRequestCore_first_headers (s : Session) (tn an : Nat → HttpResult)
    (u : Nat) : (makeRequestCore s tn an u).sentTarget.head? = some s.headers := by
  unfold makeRequestCore
  rcases tn 0 with _ | ⟨st, body⟩
  · rfl
  · dsimp only
    split
    · split
      · split
        · simp
        · split <;> simp
      · simp
    · split <;> simp

theorem makeRequestCore_sent_le_two (s : Session) (tn an : Nat → HttpResult)
    (u : Nat) : (makeRequestCore s tn an u).sentTarget.length ≤ 2 := by
  unfold makeRequestCore
  rcases tn 0 with _ | ⟨st, body⟩
  · simp
  · dsimp only
    split
    · split
      · split
        · simp
        · split <;> simp
      · simp
    · split <;> simp

theorem make_request_sent_le_two (s : Session) (tn an : Nat → HttpResult) :
    (_make_request s tn an).sentTarget.length ≤ 2 := by
  unfold _make_request
  rcases s.token with _ | t
  · dsimp only
    split
    · exact makeRequestCore_sent_le_two ..
    · simp
  · exact makeRequestCore_sent_le_two ..

/-- C3: an authentication endpoint answering 200 with a body of shape
result.token = T makes authenticate return True, store token T, and set
the default Authorization header to Bearer T; the first request
_make_request then issues to the target endpoint is sent with exactly
those headers and hence carries Authorization: Bearer T. -/
theorem auth_success_stores_bearer_token (s : Session) (T : String) :
    (authenticate s (.resp 200 (authBody T))).1 = true ∧
    (authenticate s (.resp 200 (authBody T))).2.token = some (.str T) ∧
    dictGet (authenticate s (.resp 200 (authBody T))).2.headers "Authorization"
      = some ("Bearer " ++ T) ∧
    ∀ tn an : Nat → HttpResult,
      (_make_request (authenticate s (.resp 200 (authBody T))).2 tn an).sentTarget.head?
        = some (authenticate s (.resp 200 (authBody T))).2.headers := by
  rw [authenticate_authBody]
  refine ⟨rfl, rfl, dictGet_dictSet .., fun tn an => ?_⟩
  exact makeRequestCore_first_headers ..

/-- Witness for C3 at the fresh session and token T. -/
theorem auth_success_stores_bearer_token_witness :
    (authenticate sessNoTok (.resp 200 (authBody "T"))).1 = true ∧
    (authenticate sessNoTok (.resp 200 (authBody "T"))).2.token = some (.str "T") ∧
    dictGet (authenticate sessNoTok (.resp 200 (authBody "T"))).2.headers "Authorization"
      = some "Bearer T" ∧
    ∀ tn an : Nat → HttpResult,
      (_make_request (authenticate sessNoTok (.resp 200 (authBody "T"))).2 tn an).sentTarget.head?
        = some (authenticate sessNoTok (.resp 200 (authBody "T"))).2.headers :=
  auth_success_stores_bearer_token sessNoTok "T"

/-- C4 counterexample: a client that authenticated earlier holds token
OLD; a failed re-authentication (status 500) returns False yet leaves
the stale token stored and the Authorization header in place, so the
session does not return to the claimed token-free state. -/
theorem auth_failure_keeps_stale_token :
    (authenticate sessTok (.resp 500 .null)).1 = false ∧
    (authenticate sessTok (.resp 500 .null)).2.token = some (.str "OLD") ∧
    dictGet (authenticate sessTok (.resp 500 .null)).2.headers "Authorization"
      = some "Bearer OLD" := by
  refine ⟨rfl, rfl, by decide⟩

/-- C4 amended: whenever authenticate fails it returns False and leaves
the session exactly as it was before the call — a fresh session remains
unauthenticated, but a previously held token and its Authorization
header are retained rather than cleared. -/
theorem auth_failure_leaves_session_unchanged (s : Session) (net : HttpResult)
    (h : (authenticate s net).1 = false) : authenticate s net = (false, s) := by
  unfold authenticate at h ⊢
  rcases net with _ | ⟨st, body⟩
  · rfl
  · dsimp only at h ⊢
    by_cases h200 : st = 200
    · rw [if_pos h200] at h ⊢
      rcases hr : jGet body "result" with _ | r
      · rfl
      · dsimp only at h ⊢
        rcases ht : jGet r "token" with _ | t
        · rfl
        · rw [hr] at h
          dsimp only at h
          rw [ht] at h
          simp at h
    · rw [if_neg h200]

/-- Witness for the amended C4 at the stale-token session. -/
theorem auth_failure_leaves_session_unchanged_witness :
    authenticate sessTok (.resp 500 .null) = (false, sessTok) :=
  auth_failure_leaves_session_unchanged sessTok (.resp 500 .null) rfl

/-- C1: with a token held, a 401 on the first attempt triggers exactly
one re-authentication and, when it succeeds, exactly one re-issue of the
request, never more.  Under the mocked sequence 401 / re-auth 200 / 200
the call returns the last 200 body after exactly two target calls and
one auth call; under 401 / re-auth 200 / 401 it returns none after
exactly two target calls and one re-authentication; and no run of
_make_request ever reaches the target endpoint a third time. -/
theorem retry_exactly_once_on_401 (s : Session) (t : JVal) (hTok : s.token = some t)
    (b1 b2 bOk : JVal) (T : String) (an tnA tnB : Nat → HttpResult)
    (hAn : an 0 = .resp 200 (authBody T))
    (hA0 : tnA 0 = .resp 401 b1) (hA1 : tnA 1 = .resp 200 bOk)
    (hB0 : tnB 0 = .resp 401 b1) (hB1 : tnB 1 = .resp 401 b2) :
    ((_make_request s tnA an).result = some bOk ∧
     (_make_request s tnA an).sentTarget.length = 2 ∧
     (_make_request s tnA an).authCalls = 1) ∧
    ((_make_request s tnB an).result = none ∧
     (_make_request s tnB an).sentTarget.length = 2 ∧
     (_make_request s tnB an).authCalls = 1) ∧
    ∀ tn an2 : Nat → HttpResult, (_make_request s tn an2).sentTarget.length ≤ 2 := by
  refine ⟨?_, ?_, fun tn an2 => make_request_sent_le_two s tn an2⟩ <;>
    simp [_make_request, hTok, makeRequestCore, hA0, hA1, hB0, hB1, hAn,
      authenticate_authBody]

/-- Auth endpoint oracle that always succeeds with token T. -/
def anOk : Nat → HttpResult := fun _ => .resp 200 (authBody "T")

/-- Auth endpoint oracle that always fails with a transport exception. -/
def anFail : Nat → HttpResult := fun _ => .exn

/-- Target oracle for the 401-then-200 scenario. -/
def tnSeqA : Nat → HttpResult :=
  fun n => if n = 0 then .resp 401 .null else .resp 200 (.str "ok")

/-- Target oracle answering 401 on every call. -/
def tnSeqB : Nat → HttpResult := fun _ => .resp 401 .null

/-- Target oracle raising a transport exception on every call. -/
def tnExn : Nat → HttpResult := fun _ => .exn

/-- Target oracle answering 200 on every call. -/
def tn200 : Nat → HttpResult := fun _ => .resp 200 (.str "ok")

/-- Target oracle answering 500 on every call. -/
def tn500 : Nat → HttpResult := fun _ => .resp 500 .null

/-- Witness for C1 at the stale-token session and the two mocked
response sequences. -/
theorem retry_exactly_once_on_401_witness :
    ((_make_request sessTok tnSeqA anOk).result = some (.str "ok") ∧
     (_make_request sessTok tnSeqA anOk).sentTarget.length = 2 ∧
     (_make_request sessTok tnSeqA anOk).authCalls = 1) ∧
    ((_make_request sessTok tnSeqB anOk).result = none ∧
     (_make_request sessTok tnSeqB anOk).sentTarget.length = 2 ∧
     (_make_request sessTok tnSeqB anOk).authCalls = 1) ∧
    ∀ tn an2 : Nat → HttpResult, (_make_request sessTok tn an2).sentTarget.length ≤ 2 :=
  retry_exactly_once_on_401 sessTok (.str "OLD") rfl .null .null (.str "ok") "T"
    anOk tnSeqA tnSeqB rfl rfl rfl rfl rfl

/-- C2: _make_request is a total function — every branch of the source,
including both exception handlers, yields a value instead of
propagating — and its value is fixed by the final outcome: with no token
and a failing initial authentication it returns None having issued no
target request; a transport exception on the target call gives None; a
final 200 gives the decoded body; any other final status, a failed
re-authentication after a 401, or an exception on the retry, give None. -/
theorem make_request_never_raises (s : Session) (tn an : Nat → HttpResult) :
    (s.token = none → (authenticate s (an 0)).1 = false →
      _make_request s tn an = ⟨none, (authenticate s (an 0)).2, [], 1⟩) ∧
    (∀ t, s.token = some t → tn 0 = .exn →
      (_make_request s tn an).result = none) ∧
    (∀ t b, s.token = some t → tn 0 = .resp 200 b →
      (_make_request s tn an).result = some b) ∧
    (∀ t st b, s.token = some t → tn 0 = .resp st b → st ≠ 200 → st ≠ 401 →
      (_make_request s tn an).result = none) ∧
    (∀ t b, s.token = some t → tn 0 = .resp 401 b →
      (authenticate s (an 0)).1 = false → (_make_request s tn an).result = none) ∧
    (∀ t b, s.token = some t → tn 0 = .resp 401 b → tn 1 = .exn →
      (_make_request s tn an).result = none) ∧
    (∀ t b st2 b2, s.token = some t → tn 0 = .resp 401 b → tn 1 = .resp st2 b2 →
      st2 ≠ 200 → (_make_request s tn an).result = none) := by
  refine ⟨?_, ?_, ?_, ?_, ?_, ?_, ?_⟩
  · intro hTok hAuth
    rcases hA : authenticate s (an 0) with ⟨ok, s1⟩
    rw [hA] at hAuth
    cases ok
    · simp [_make_request, hTok, hA]
    · exact absurd hAuth (by simp)
  · intro t hTok hExn
    simp [_make_request, hTok, makeRequestCore, hExn]
  · intro t b hTok h200
    simp [_make_request, hTok, makeRequestCore, h200]
  · intro t st b hTok hSt h200 h401
    simp [_make_request, hTok, makeRequestCore, hSt, h200, h401]
  · intro t b hTok h401 hAuth
    rcases hA : authenticate s (an 0) with ⟨ok, s1⟩
    rw [hA] at hAuth
    cases ok
    · simp [_make_request, hTok, makeRequestCore, h401, hA]
    · exact absurd hAuth (by simp)
  · intro t b hTok h401 hExn
    rcases hA : authenticate s (an 0) with ⟨ok, s1⟩
    cases ok <;> simp [_make_request, hTok, makeRequestCore, h401, hExn, hA]
  · intro t b st2 b2 hTok h401 hRetry hSt2
    rcases hA : authenticate s (an 0) with ⟨ok, s1⟩
    cases ok <;> simp [_make_request, hTok, makeRequestCore, h401, hRetry, hSt2, hA]

/-- Witness for C2 at concrete sessions and oracles: unauthenticated
with failing auth, transport exception, final 200, and final 500. -/
theorem make_request_never_raises_witness :
    _make_request sessNoTok tn200 anFail = ⟨none, sessNoTok, [], 1⟩ ∧
    (_make_request sessTok tnExn anOk).result = none ∧
    (_make_request sessTok tn200 anOk).result = some (.str "ok") ∧
    (_make_request sessTok tn500 anOk).result = none := by
  refine ⟨?_, ?_, ?_, ?_⟩
  · exact (make_request_never_raises sessNoTok tn200 anFail).1 rfl rfl
  · exact (make_request_never_raises sessTok tnExn anOk).2.1 (.str "OLD") rfl rfl
  · exact (make_request_never_raises sessTok tn200 anOk).2.2.1 (.str "OLD") (.str "ok")
      rfl rfl
  · exact (make_request_never_raises sessTok tn500 anOk).2.2.2.1 (.str "OLD") 500 .null
      rfl rfl (by decide) (by decide)

/-- Concatenation, in page order, of the items the oracle returns for k
consecutive pages starting at the given page. -/
def pagesConcat {α : Type} (method : Nat → Option (List α)) (page : Nat) :
    Nat → List α
  | 0 => []
  | k + 1 => ((method page).getD []) ++ pagesConcat method (page + 1) k

theorem getAllPagesAux_step {α : Type} (method : Nat → Option (List α))
    (fuel page calls : Nat) (acc p : List α)
    (hp : method page = some p) (hlen : p.length = 50) :
    getAllPagesAux method (fuel + 1) page acc calls
      = getAllPagesAux method fuel (page + 1) (acc ++ p) (calls + 1) := by
  have hne : p.isEmpty = false := by
    cases p
    · simp at hlen
    · rfl
  simp [getAllPagesAux, hp, hne, hlen]

theorem getAllPagesAux_full_run {α : Type} (method : Nat → Option (List α)) :
    ∀ (k fuel page calls : Nat) (acc : List α),
      (∀ i, i < k → ∃ p, method (page + i) = some p ∧ p.length = 50) →
      getAllPagesAux method (fuel + k) page acc calls
        = getAllPagesAux method fuel (page + k) (acc ++ pagesConcat method page k)
            (calls + k) := by
  intro k
  induction k with
  | zero => intro fuel page calls acc _; simp [pagesConcat]
  | succ k ih =>
    intro fuel page calls acc hfull
    obtain ⟨p, hp, hlen⟩ := hfull 0 (Nat.succ_pos k)
    rw [Nat.add_zero] at hp
    have step := getAllPagesAux_step method (fuel + k) page calls acc p hp hlen
    rw [show fuel + (k + 1) = fuel + k + 1 from rfl, step,
      ih fuel (page + 1) (calls + 1) (acc ++ p)
        (fun i hi => by
          obtain ⟨q, hq, hql⟩ := hfull (i + 1) (Nat.succ_lt_succ hi)
          exact ⟨q, by rw [show page + 1 + i = page + (i + 1) by omega]; exact hq, hql⟩)]
    have hpages : pagesConcat method page (k + 1)
        = p ++ pagesConcat method (page + 1) k := by
      simp [pagesConcat, hp]
    rw [hpages]
    have : page + 1 + k = page + (k + 1) := by omega
    rw [this, List.append_assoc]
    have : calls + 1 + k = calls + (k + 1) := by omega
    rw [this]

theorem pagesConcat_congr {α : Type} (f g : Nat → Option (List α)) :
    ∀ (k page : Nat), (∀ i, i < k → f (page + i) = g (page + i)) →
      pagesConcat f page k = pagesConcat g page k := by
  intro k
  induction k with
  | zero => intro page _; rfl
  | succ k ih =>
    intro page h
    have h0 := h 0 (Nat.succ_pos k)
    rw [Nat.add_zero] at h0
    simp only [pagesConcat, h0]
    rw [ih (page + 1) (fun i hi => by
      have := h (i + 1) (Nat.succ_lt_succ hi)
      rwa [show page + (i + 1) = page + 1 + i by omega] at this)]

/-- C5: get_all_pages walks pages 0, 1, 2, ... at page size 50 and stops
at the first short or empty page, concatenating all items in page order
without deduplication.  With pages of sizes 50, 50, 13 it returns all
113 items after exactly 3 calls; with an empty page 0 it returns the
empty list after exactly 1 call. -/
theorem get_all_pages_page_walk {α : Type} (p0 p1 p2 : List α)
    (h0 : p0.length = 50) (h1 : p1.length = 50) (h2 : p2.length = 13)
    (fetch fetchE : Nat → Option (List α)) (fuel : Nat) (hfuel : 3 ≤ fuel)
    (hf0 : fetch 0 = some p0) (hf1 : fetch 1 = some p1) (hf2 : fetch 2 = some p2)
    (hE : fetchE 0 = some []) :
    get_all_pages fetch fuel = (p0 ++ p1 ++ p2, 3) ∧
    get_all_pages fetchE fuel = ([], 1) := by
  obtain ⟨f, rfl⟩ : ∃ f, fuel = f + 3 := ⟨fuel - 3, by omega⟩
  constructor
  · have s0 := getAllPagesAux_step fetch (f + 2) 0 0 [] p0 hf0 h0
    have s1 := getAllPagesAux_step fetch (f + 1) 1 1 p0 p1 hf1 h1
    unfold get_all_pages
    rw [show f + 3 = f + 2 + 1 from rfl, s0]
    simp only [List.nil_append]
    rw [show f + 2 = f + 1 + 1 from rfl, s1]
    have h2' : (p2.isEmpty = false) := by
      cases p2
      · simp at h2
      · rfl
    simp [getAllPagesAux, hf2, h2', h2, List.append_assoc]
  · unfold get_all_pages
    rw [show f + 3 = f + 2 + 1 from rfl]
    simp [getAllPagesAux, hE]

/-- Witness oracles for C5: three pages of sizes 50, 50, 13, and an
oracle whose page 0 is empty. -/
def fetchW : Nat → Option (List Nat) :=
  fun n =>
    if n = 0 then some (List.replicate 50 0)
    else if n = 1 then some (List.replicate 50 1)
    else if n = 2 then some (List.replicate 13 2)
    else some []

/-- Oracle answering the empty page on every call. -/
def fetchEmptyW : Nat → Option (List Nat) := fun _ => some []

/-- Witness for C5 at the concrete page oracles and fuel 3. -/
theorem get_all_pages_page_walk_witness :
    get_all_pages fetchW 3
      = (List.replicate 50 0 ++ List.replicate 50 1 ++ List.replicate 13 2, 3) ∧
    get_all_pages fetchEmptyW 3 = ([], 1) :=
  get_all_pages_page_walk (List.replicate 50 0) (List.replicate 50 1)
    (List.replicate 13 2) (by simp) (by simp) (by simp) fetchW fetchEmptyW 3
    (by omega) rfl rfl rfl rfl

/-- C6: when the underlying method fails with None on page k after k
full pages, get_all_pages stops and returns exactly the items of pages
0 through k-1 after k+1 calls, and its output coincides with that of a
method whose page k is a genuinely empty final page — at this interface
a partial result caused by a mid-sequence failure is indistinguishable
from a complete one. -/
theorem get_all_pages_partial_eq_complete {α : Type}
    (fetch : Nat → Option (List α)) (k fuel : Nat) (hk : 1 ≤ k)
    (hfull : ∀ i, i < k → ∃ p, fetch i = some p ∧ p.length = 50)
    (hfail : fetch k = none) (hfuel : k + 1 ≤ fuel) :
    get_all_pages fetch fuel = (pagesConcat fetch 0 k, k + 1) ∧
    get_all_pages fetch fuel
      = get_all_pages (fun i => if i = k then some [] else fetch i) fuel := by
  obtain ⟨f, rfl⟩ : ∃ f, fuel = f + 1 + k := ⟨fuel - 1 - k, by omega⟩
  have hrun := getAllPagesAux_full_run fetch k (f + 1) 0 0 []
    (fun i hi => by simpa using hfull i hi)
  have hleft : get_all_pages fetch (f + 1 + k) = (pagesConcat fetch 0 k, k + 1) := by
    unfold get_all_pages
    rw [hrun]
    simp [getAllPagesAux, hfail]
  refine ⟨hleft, ?_⟩
  rw [hleft]
  have hfull2 : ∀ i, i < k →
      ∃ p, (fun i => if i = k then some [] else fetch i) i = some p ∧ p.length = 50 := by
    intro i hi
    obtain ⟨p, hp, hl⟩ := hfull i hi
    exact ⟨p, by simp [Nat.ne_of_lt hi, hp], hl⟩
  have hrun2 := getAllPagesAux_full_run (fun i => if i = k then some [] else fetch i)
    k (f + 1) 0 0 [] (fun i hi => by simpa using hfull2 i hi)
  have heq : pagesConcat (fun i => if i = k then some [] else fetch i) 0 k
      = pagesConcat fetch 0 k :=
    pagesConcat_congr _ _ k 0 (fun i hi => by simp [Nat.ne_of_lt hi])
  have hright : get_all_pages (fun i => if i = k then some [] else fetch i) (f + 1 + k)
      = (pagesConcat fetch 0 k, k + 1) := by
    unfold get_all_pages
    rw [hrun2]
    simp [getAllPagesAux, heq]
  rw [hright]

/-- Witness oracle for C6: one full page, then a None failure. -/
def fetchFailW : Nat → Option (List Nat) :=
  fun n => if n = 0 then some (List.replicate 50 0) else none

/-- Witness for C6 at the concrete failing oracle, k = 1, fuel 2. -/
theorem get_all_pages_partial_eq_complete_witness :
    get_all_pages fetchFailW 2 = (List.replicate 50 0, 2) ∧
    get_all_pages fetchFailW 2
      = get_all_pages (fun i => if i = 1 then some [] else fetchFailW i) 2 := by
  have h := get_all_pages_partial_eq_complete fetchFailW 1 2 (by omega)
    (fun i hi => by
      interval_cases i
      exact ⟨List.replicate 50 0, rfl, by simp⟩)
    rfl (by omega)
  simpa [pagesConcat, fetchFailW] using h

theorem utf8Bytes_lt_256 (c : Char) : ∀ b ∈ utf8Bytes c, b < 256 := by
  have hval : c.toNat < 1114112 := by
    have h := c.valid
    rcases h with h | ⟨_, h2⟩
    · calc c.toNat < 0xd800 := h
        _ < 1114112 := by norm_num
    · exact h2
  intro b hb
  unfold utf8Bytes at hb
  by_cases h1 : c.toNat < 128
  · simp [h1] at hb
    omega
  · by_cases h2 : c.toNat < 2048
    · simp [h1, h2] at hb
      rcases hb with rfl | rfl <;> omega
    · by_cases h3 : c.toNat < 65536
      · simp [h1, h2, h3] at hb
        rcases hb with rfl | rfl | rfl <;> omega
      · simp [h1, h2, h3] at hb
        rcases hb with rfl | rfl | rfl | rfl <;> omega

theorem alwaysSafe_hexDigit (n : Nat) (h : n < 16) :
    alwaysSafe (hexDigit n) = true := by
  have : ∀ m, m < 16 → alwaysSafe (hexDigit m) = true := by decide
  exact this n h

theorem percentChars_safe (bs : List Nat) (hbs : ∀ b ∈ bs, b < 256) :
    ∀ c ∈ percentChars bs, alwaysSafe c = true ∨ c = '%' := by
  induction bs with
  | nil => intro c hc; simp [percentChars] at hc
  | cons b rest ih =>
    intro c hc
    have hb : b < 256 := hbs b (List.mem_cons_self ..)
    simp only [percentChars, List.mem_cons] at hc
    rcases hc with rfl | rfl | rfl | hc
    · exact Or.inr rfl
    · exact Or.inl (alwaysSafe_hexDigit _ (by omega))
    · exact Or.inl (alwaysSafe_hexDigit _ (by omega))
    · exact ih (fun x hx => hbs x (List.mem_cons_of_mem _ hx)) c hc

/-- Every character of a quoted string is either in the always-safe set
or a percent sign: quoting leaves no raw reserved character such as a
slash or a colon in the output. -/
theorem quote_chars_safe (s : String) :
    ∀ c ∈ (quote s).data, alwaysSafe c = true ∨ c = '%' := by
  show ∀ c ∈ quoteChars s.data, _
  induction s.data with
  | nil => intro c hc; simp [quoteChars] at hc
  | cons x xs ih =>
    intro c hc
    simp only [quoteChars, List.mem_append] at hc
    rcases hc with hc | hc
    · by_cases hx : alwaysSafe x
      · rw [if_pos hx] at hc
        simp only [List.mem_singleton] at hc
        exact Or.inl (hc ▸ hx)
      · rw [if_neg hx] at hc
        exact percentChars_safe _ (utf8Bytes_lt_256 x) c hc
    · exact ih c hc

/-- C7 counterexample: the claim covers every get-by-URI and delete
method, but ProjectsClient.delete_project interpolates the URI into the
path verbatim — for the URI test:proj/1 the path keeps the raw colon and
slash, unlike the percent-encoded form that quote would produce and that
get_project_by_uri uses. -/
theorem delete_project_uri_not_percent_encoded :
    delete_project_path "test:proj/1" = "/core/projects/test:proj/1" ∧
    quote "test:proj/1" = "test%3Aproj%2F1" ∧
    delete_project_path "test:proj/1" ≠ "/core/projects/" ++ quote "test:proj/1" := by
  refine ⟨rfl, by decide, by decide⟩

/-- C7 amended: among the URI-in-path resource methods of the projects
module only get_project_by_uri percent-encodes the caller-supplied URI
(after which the path segment holds no character outside the always-safe
set except the percent sign itself); delete_project, the experiment
methods and the scientific-object methods interpolate the URI into the
path verbatim; URI values sent as query parameters are passed verbatim. -/
theorem uri_path_encoding_by_method (uri : String) (uris : List String) :
    (get_project_by_uri_path uri = "/core/projects/" ++ quote uri ∧
      ∀ c ∈ (quote uri).data, alwaysSafe c = true ∨ c = '%') ∧
    delete_project_path uri = "/core/projects/" ++ uri ∧
    get_experiment_by_uri_path uri = "/core/experiments/" ++ uri ∧
    delete_experiment_path uri = "/core/experiments/" ++ uri ∧
    get_scientific_object_by_uri_path uri = "/core/scientific_objects/" ++ uri ∧
    delete_scientific_object_path uri = "/core/scientific_objects/" ++ uri ∧
    get_projects_by_uris uris = [("uris", PVal.ls uris)] :=
  ⟨⟨rfl, quote_chars_safe uri⟩, rfl, rfl, rfl, rfl, rfl, rfl⟩

/-- Witness for the amended C7 at a concrete URI. -/
theorem uri_path_encoding_by_method_witness :
    (get_project_by_uri_path "test:proj/1"
        = "/core/projects/" ++ quote "test:proj/1" ∧
      ∀ c ∈ (quote "test:proj/1").data, alwaysSafe c = true ∨ c = '%') ∧
    delete_project_path "test:proj/1" = "/core/projects/test:proj/1" ∧
    get_experiment_by_uri_path "test:proj/1" = "/core/experiments/test:proj/1" ∧
    delete_experiment_path "test:proj/1" = "/core/experiments/test:proj/1" ∧
    get_scientific_object_by_uri_path "test:proj/1"
      = "/core/scientific_objects/test:proj/1" ∧
    delete_scientific_object_path "test:proj/1"
      = "/core/scientific_objects/test:proj/1" ∧
    get_projects_by_uris ["http:u"] = [("uris", PVal.ls ["http:u"])] :=
  uri_path_encoding_by_method "test:proj/1" ["http:u"]

/-- Keys of the project creation body, in source serialization order. -/
def createFields : List String :=
  ["uri", "name", "shortname", "description", "start_date", "end_date",
   "homepage", "objective", "keywords", "related_projects", "coordinators",
   "scientific_contacts", "administrative_contacts"]

/-- Keys of the project search query, in source order. -/
def searchFields : List String :=
  ["page", "page_size", "name", "year", "keyword", "order_by"]

theorem seg_sublist (c : Bool) (k : String) (v : PVal)
    (l : List (String × PVal)) (L : List String) (h : List.Sublist (l.map Prod.fst) L) :
    List.Sublist (((seg c k v) ++ l).map Prod.fst) (k :: L) := by
  cases c
  · simpa [seg] using h.cons k
  · simpa [seg] using h.cons₂ k

theorem seg_sublist_nil (c : Bool) (k : String) (v : PVal) :
    List.Sublist ((seg c k v).map Prod.fst) [k] := by
  cases c <;> simp [seg]

theorem dictGet_seg_ne {k k' : String} (h : k' ≠ k) (c : Bool) (v : PVal)
    (rest : List (String × PVal)) :
    dictGet (seg c k' v ++ rest) k = dictGet rest k := by
  cases c <;> simp [seg, dictGet, h]

theorem dictGet_seg_eq (k : String) (c : Bool) (v : PVal)
    (rest : List (String × PVal)) :
    dictGet (seg c k v ++ rest) k = if c then some v else dictGet rest k := by
  cases c <;> simp [seg, dictGet]

theorem dictGet_seg_last_ne {k k' : String} (h : k' ≠ k) (c : Bool) (v : PVal) :
    dictGet (seg c k' v) k = none := by
  cases c <;> simp [seg, dictGet, h]

theorem dictGet_seg_last_eq (k : String) (c : Bool) (v : PVal) :
    dictGet (seg c k v) k = if c then some v else none := by
  cases c <;> simp [seg, dictGet]

/-- C8 counterexample: a creation whose description is set to the
non-None value of the empty string serializes a body containing only the
name key — the field set to a non-None value is not included, because
the source guards each field with Python truthiness, not a None check. -/
theorem create_project_omits_set_empty_field :
    ({ name := some "x", description := some "" } : ProjectCreationData).description
      = some "" ∧
    create_project { name := some "x", description := some "" }
      = [("name", PVal.s "x")] :=
  ⟨rfl, by decide⟩

set_option maxHeartbeats 1600000 in
/-- C8 amended: search_projects and create_project serialize exactly the
truthy optional fields — non-None and non-empty, and non-zero for the
integer field — omitting the rest rather than sending nulls.  The keys
of a creation body form a sublist of the ordered field list; each key is
present exactly when its field is truthy, carrying the field value
verbatim; the search query always carries page and page_size; and a
creation with only a non-empty name set produces a body holding only the
name key. -/
theorem serializes_exactly_truthy_fields (d : ProjectCreationData)
    (p : ProjectSearchParams) (n : String) (hn : n ≠ "") :
    List.Sublist ((create_project d).map Prod.fst) createFields ∧
    List.Sublist ((search_projects p).map Prod.fst) searchFields ∧
    dictGet (create_project d) "uri"
      = (if truthyStr d.uri then some (PVal.s (d.uri.getD "")) else none) ∧
    dictGet (create_project d) "name"
      = (if truthyStr d.name then some (PVal.s (d.name.getD "")) else none) ∧
    dictGet (create_project d) "shortname"
      = (if truthyStr d.shortname then some (PVal.s (d.shortname.getD "")) else none) ∧
    dictGet (create_project d) "description"
      = (if truthyStr d.description then some (PVal.s (d.description.getD ""))
         else none) ∧
    dictGet (create_project d) "start_date"
      = (if truthyStr d.start_date then some (PVal.s (d.start_date.getD ""))
         else none) ∧
    dictGet (create_project d) "end_date"
      = (if truthyStr d.end_date then some (PVal.s (d.end_date.getD "")) else none) ∧
    dictGet (create_project d) "homepage"
      = (if truthyStr d.homepage then some (PVal.s (d.homepage.getD "")) else none) ∧
    dictGet (create_project d) "objective"
      = (if truthyStr d.objective then some (PVal.s (d.objective.getD "")) else none) ∧
    dictGet (create_project d) "keywords"
      = (if truthyList d.keywords then some (PVal.ls (d.keywords.getD [])) else none) ∧
    dictGet (create_project d) "related_projects"
      = (if truthyList d.related_projects
         then some (PVal.ls (d.related_projects.getD [])) else none) ∧
    dictGet (create_project d) "coordinators"
      = (if truthyList d.coordinators then some (PVal.ls (d.coordinators.getD []))
         else none) ∧
    dictGet (create_project d) "scientific_contacts"
      = (if truthyList d.scientific_contacts
         then some (PVal.ls (d.scientific_contacts.getD [])) else none) ∧
    dictGet (create_project d) "administrative_contacts"
      = (if truthyList d.administrative_contacts
         then some (PVal.ls (d.administrative_contacts.getD [])) else none) ∧
    dictGet (search_projects p) "page" = some (PVal.i p.page) ∧
    dictGet (search_projects p) "page_size" = some (PVal.i p.page_size) ∧
    dictGet (search_projects p) "name"
      = (if truthyStr p.name then some (PVal.s (p.name.getD "")) else none) ∧
    dictGet (search_projects p) "year"
      = (if truthyInt p.year then some (PVal.i (p.year.getD 0)) else none) ∧
    dictGet (search_projects p) "keyword"
      = (if truthyStr p.keyword then some (PVal.s (p.keyword.getD "")) else none) ∧
    dictGet (search_projects p) "order_by"
      = (if truthyList p.order_by then some (PVal.ls (p.order_by.getD [])) else none) ∧
    create_project { name := some n } = [("name", PVal.s n)] := by
  refine ⟨?_, ?_, ?_, ?_, ?_, ?_, ?_, ?_, ?_, ?_, ?_, ?_, ?_, ?_, ?_, ?_, ?_,
    ?_, ?_, ?_, ?_, ?_⟩
  case _ =>
    show List.Sublist ((create_project d).map Prod.fst) createFields
    unfold create_project createFields
    refine seg_sublist _ _ _ _ _ ?_
    refine seg_sublist _ _ _ _ _ ?_
    refine seg_sublist _ _ _ _ _ ?_
    refine seg_sublist _ _ _ _ _ ?_
    refine seg_sublist _ _ _ _ _ ?_
    refine seg_sublist _ _ _ _ _ ?_
    refine seg_sublist _ _ _ _ _ ?_
    refine seg_sublist _ _ _ _ _ ?_
    refine seg_sublist _ _ _ _ _ ?_
    refine seg_sublist _ _ _ _ _ ?_
    refine seg_sublist _ _ _ _ _ ?_
    refine seg_sublist _ _ _ _ _ ?_
    exact seg_sublist_nil _ _ _
  case _ =>
    show List.Sublist ((search_projects p).map Prod.fst) searchFields
    unfold search_projects searchFields
    rw [List.map_append]
    simp only [List.map_cons, List.map_nil, List.cons_append, List.nil_append]
    refine List.Sublist.cons₂ _ (List.Sublist.cons₂ _ ?_)
    refine seg_sublist _ _ _ _ _ ?_
    refine seg_sublist _ _ _ _ _ ?_
    refine seg_sublist _ _ _ _ _ ?_
    exact seg_sublist_nil _ _ _
  all_goals try
    (simp only [create_project, search_projects, List.cons_append, List.nil_append,
      List.append_eq, dictGet, dictGet_seg_ne, dictGet_seg_eq, dictGet_seg_last_ne,
      dictGet_seg_last_eq, ne_eq, String.reduceEq, not_false_eq_true, reduceIte];
     done)
  simp [create_project, seg, truthyStr, truthyList, hn]

/-- Witness data for C8: name and a truthy description are set. -/
def nameDescW : ProjectCreationData := { name := some "demo", description := some "d" }

/-- Witness search parameters for C8: only the year filter is set. -/
def yearOnlyW : ProjectSearchParams := { year := some 2024 }

/-- Witness for the amended C8 at concrete parameter objects. -/
theorem serializes_exactly_truthy_fields_witness :
    List.Sublist ((create_project nameDescW).map Prod.fst) createFields ∧
    List.Sublist ((search_projects yearOnlyW).map Prod.fst) searchFields ∧
    dictGet (create_project nameDescW) "uri"
      = (if truthyStr nameDescW.uri then some (PVal.s (nameDescW.uri.getD ""))
         else none) ∧
    dictGet (create_project nameDescW) "name"
      = (if truthyStr nameDescW.name then some (PVal.s (nameDescW.name.getD ""))
         else none) ∧
    dictGet (create_project nameDescW) "shortname"
      = (if truthyStr nameDescW.shortname
         then some (PVal.s (nameDescW.shortname.getD "")) else none) ∧
    dictGet (create_project nameDescW) "description"
      = (if truthyStr nameDescW.description
         then some (PVal.s (nameDescW.description.getD "")) else none) ∧
    dictGet (create_project nameDescW) "start_date"
      = (if truthyStr nameDescW.start_date
         then some (PVal.s (nameDescW.start_date.getD "")) else none) ∧
    dictGet (create_project nameDescW) "end_date"
      = (if truthyStr nameDescW.end_date
         then some (PVal.s (nameDescW.end_date.getD "")) else none) ∧
    dictGet (create_project nameDescW) "homepage"
      = (if truthyStr nameDescW.homepage
         then some (PVal.s (nameDescW.homepage.getD "")) else none) ∧
    dictGet (create_project nameDescW) "objective"
      = (if truthyStr nameDescW.objective
         then some (PVal.s (nameDescW.objective.getD "")) else none) ∧
    dictGet (create_project nameDescW) "keywords"
      = (if truthyList nameDescW.keywords
         then some (PVal.ls (nameDescW.keywords.getD [])) else none) ∧
    dictGet (create_project nameDescW) "related_projects"
      = (if truthyList nameDescW.related_projects
         then some (PVal.ls (nameDescW.related_projects.getD [])) else none) ∧
    dictGet (create_project nameDescW) "coordinators"
      = (if truthyList nameDescW.coordinators
         then some (PVal.ls (nameDescW.coordinators.getD [])) else none) ∧
    dictGet (create_project nameDescW) "scientific_contacts"
      = (if truthyList nameDescW.scientific_contacts
         then some (PVal.ls (nameDescW.scientific_contacts.getD [])) else none) ∧
    dictGet (create_project nameDescW) "administrative_contacts"
      = (if truthyList nameDescW.administrative_contacts
         then some (PVal.ls (nameDescW.administrative_contacts.getD [])) else none) ∧
    dictGet (search_projects yearOnlyW) "page" = some (PVal.i yearOnlyW.page) ∧
    dictGet (search_projects yearOnlyW) "page_size"
      = some (PVal.i yearOnlyW.page_size) ∧
    dictGet (search_projects yearOnlyW) "name"
      = (if truthyStr yearOnlyW.name then some (PVal.s (yearOnlyW.name.getD ""))
         else none) ∧
    dictGet (search_projects yearOnlyW) "year"
      = (if truthyInt yearOnlyW.year then some (PVal.i (yearOnlyW.year.getD 0))
         else none) ∧
    dictGet (search_projects yearOnlyW) "keyword"
      = (if truthyStr yearOnlyW.keyword then some (PVal.s (yearOnlyW.keyword.getD ""))
         else none) ∧
    dictGet (search_projects yearOnlyW) "order_by"
      = (if truthyList yearOnlyW.order_by
         then some (PVal.ls (yearOnlyW.order_by.getD [])) else none) ∧
    create_project { name := some "demo" } = [("name", PVal.s "demo")] :=
  serializes_exactly_truthy_fields nameDescW yearOnlyW "demo" (by decide)

/-- C9 counterexample: the claim requires every SSH-config parser in the
repository to return an empty mapping on a missing file; the parser in
get_host.py instead propagates the FileNotFoundError from the open call
to its caller, so it yields no mapping at all. -/
theorem get_host_raises_on_missing_file :
    getHostParse none = Except.error "FileNotFoundError" ∧
    getHostParse none ≠ Except.ok [] :=
  ⟨rfl, by simp [getHostParse]⟩

/-- C9 amended: on a missing or unreadable configuration file the parser
in opensilex_client.py returns the empty mapping without raising, while
the parser in get_host.py propagates the file error to its caller. -/
theorem ssh_config_missing_file_behaviour :
    parse_ssh_config none = [] ∧
    getHostParse none = Except.error "FileNotFoundError" :=
  ⟨rfl, rfl⟩

/-- C10: every envelope built by the classifying constructor satisfies
the invariant — success implies an HTTP status inside the 200 to 299
range, and failure implies that the error list, the message, or the
status code is populated. -/
theorem envelope_invariant (o : CallOutcome) :
    ((mkEnvelope o).success = true →
      ∃ st, (mkEnvelope o).status_code = some st ∧ 200 ≤ st ∧ st ≤ 299) ∧
    ((mkEnvelope o).success = false →
      (mkEnvelope o).errors ≠ [] ∨ (mkEnvelope o).message ≠ none ∨
        (mkEnvelope o).status_code ≠ none) := by
  rcases o with _ | ⟨stage, msg⟩ | ⟨status, body, remoteErrors, remoteMessage⟩
  · exact ⟨fun h => by simp [mkEnvelope] at h, fun _ => by simp [mkEnvelope]⟩
  · exact ⟨fun h => by simp [mkEnvelope] at h, fun _ => by simp [mkEnvelope]⟩
  · by_cases hr : 200 ≤ status ∧ status ≤ 299
    · refine ⟨fun _ => ⟨status, ?_, hr.1, hr.2⟩, fun h => ?_⟩
      · simp [mkEnvelope, hr]
      · simp [mkEnvelope, hr] at h
    · refine ⟨fun h => ?_, fun _ => ?_⟩
      · simp [mkEnvelope, hr] at h
      · refine Or.inr (Or.inr ?_)
        simp [mkEnvelope, hr]

/-- Witness for C10 at a received 204 response. -/
theorem envelope_invariant_witness :
    ((mkEnvelope (.response 204 .null [] none)).success = true →
      ∃ st, (mkEnvelope (.response 204 .null [] none)).status_code = some st ∧
        200 ≤ st ∧ st ≤ 299) ∧
    ((mkEnvelope (.response 204 .null [] none)).success = false →
      (mkEnvelope (.response 204 .null [] none)).errors ≠ [] ∨
      (mkEnvelope (.response 204 .null [] none)).message ≠ none ∨
      (mkEnvelope (.response 204 .null [] none)).status_code ≠ none) :=
  envelope_invariant (.response 204 .null [] none)
